import Mathlib

/-!
Verification development for the auto-flow repository.

The definitions below are a shallow embedding of the TypeScript sources:

* `src/components/MacroRecorder.tsx` — selector synthesis (`generateSelector`),
  script code generation (`generateScript`), cross-window message handling
  (`handleMessage`).
* `src/services/workflowExecutor.ts` — the action-replay executor
  (`WorkflowExecutor.executeWorkflow`).
* `src/services/WorkflowExecutionEngine.ts` — the node-graph engine
  (`executeWorkflow`, `executeNode`, `executeCondition`, `executeDelay`, …).
* the advanced scheduling service (`executeScheduledWorkflow`, `scheduleRetry`).

JavaScript dynamic values are modelled by the inductive `JsValue`; machine
time (`Date.now()`, `setTimeout` clocks) is modelled by explicit integer
parameters where a result depends on it and omitted where only log text would
change.  External collaborators (Gmail/Drive/GitHub API wrappers, the DOM)
are modelled as explicit oracle parameters at exactly the method boundaries
where the sources call them.
-/

namespace AutoFlow

/-- A JavaScript runtime value as stored in the `config`, `variables` and
`results` records of the sources (string, number, boolean, array, object).
Numbers are modelled as integers: every numeric literal the relevant code
paths manipulate is an integer, and no claim depends on fractional values. -/
inductive JsValue where
  | str : String → JsValue
  | num : Int → JsValue
  | bool : Bool → JsValue
  | list : List JsValue → JsValue
  | obj : List (String × JsValue) → JsValue
  deriving Repr

/-- JavaScript truthiness for `JsValue` (`NaN` is outside the integer model;
arrays and objects are always truthy). -/
def jsTruthy : JsValue → Bool
  | .str s => s ≠ ""
  | .num n => n ≠ 0
  | .bool b => b
  | .list _ => true
  | .obj _ => true

/-- Lookup in a JavaScript-object-like association list (`variables`,
`results`, `config`).  The write operation `jsSet` keeps keys unique, so the
first match is the only match. -/
def jsGet : List (String × JsValue) → String → Option JsValue
  | [], _ => none
  | (k0, v0) :: rest, k => if k0 == k then some v0 else jsGet rest k

/-- Property write on a JavaScript-object-like association list: overwrite in
place if the key exists (JS objects keep the original insertion position),
otherwise append. -/
def jsSet (m : List (String × JsValue)) (k : String) (v : JsValue) :
    List (String × JsValue) :=
  match m with
  | [] => [(k, v)]
  | (k0, v0) :: rest =>
      if k0 == k then (k0, v) :: rest else (k0, v0) :: jsSet rest k v

/-- `a || b` on optional JS values: the left operand when present and truthy,
otherwise the right operand. -/
def jsOr (a : Option JsValue) (b : JsValue) : JsValue :=
  match a with
  | some v => if jsTruthy v then v else b
  | none => b

/-- String rendering of a `JsValue` as a JS template literal renders it
(`String(v)`): identity on strings, decimal on numbers, `true`/`false` on
booleans, comma-joined elements for arrays, `[object Object]` for objects. -/
def jsDisplay : JsValue → String
  | .str s => s
  | .num n => toString n
  | .bool b => if b then "true" else "false"
  | .list l => String.intercalate "," (l.map jsDisplayList)
  | .obj _ => "[object Object]"
where
  /-- Element rendering inside an array join. -/
  jsDisplayList : JsValue → String
  | .str s => s
  | .num n => toString n
  | .bool b => if b then "true" else "false"
  | .list _ => ""
  | .obj _ => "[object Object]"

/-! ## Action capture data model (`MacroRecorder.tsx`, interface `MacroAction`) -/

/-- The `type` field of a `MacroAction`. -/
inductive ActionType where
  | click | input | navigation | scroll | keypress
  deriving Repr, DecidableEq

/-- The string the source stores in `action.type`. -/
def ActionType.asString : ActionType → String
  | .click => "click"
  | .input => "input"
  | .navigation => "navigation"
  | .scroll => "scroll"
  | .keypress => "keypress"

/-- One captured interaction (interface `MacroAction`, MacroRecorder.tsx lines
30–41).  Optional fields are `Option`; `none` models an absent (undefined)
property. -/
structure MacroAction where
  id : String
  timestamp : Int
  type : ActionType
  element : Option String := none
  value : Option String := none
  coordinates : Option (Int × Int) := none
  url : Option String := none
  selector : Option String := none
  text : Option String := none
  tagName : Option String := none
  deriving Repr

/-! ## Selector synthesizer (`generateSelector`, MacroRecorder.tsx 688–702) -/

/-- The element description `generateSelector` reads: `id`, `className`
(`none` models a non-string `className` such as an SVG element's
`SVGAnimatedString`, which the source guards against with a `typeof` check),
`tagName`, and the `type` / `name` / `placeholder` attributes (`""` models an
absent attribute, matching JS falsiness of the empty string). -/
structure ElementDesc where
  id : String
  className : Option String
  tagName : String
  typeAttr : String
  nameAttr : String
  placeholder : String

/-- `String.prototype.split` with a one-character separator, on character
lists: `"a  b".split(' ')` is `["a", "", "b"]`. -/
def charSplit (sep : Char) : List Char → List (List Char)
  | [] => [[]]
  | c :: cs =>
      let rest := charSplit sep cs
      if c == sep then [] :: rest
      else
        match rest with
        | t :: ts => (c :: t) :: ts
        | [] => [[c]]

/-- Embedding of `generateSelector` (MacroRecorder.tsx lines 688–702):
id first, then first class token (`className.split(' ')` filtered by
`c.length > 0 && !c.includes(' ')`), then tag name with attribute clauses. -/
def generateSelector (e : ElementDesc) : String :=
  if e.id ≠ "" then "#" ++ e.id
  else
    let classSel : Option String :=
      match e.className with
      | some cn =>
          if cn ≠ "" then
            let classes := (charSplit ' ' cn.toList).filter
              (fun c => decide (0 < c.length) && !(c.any (fun ch => ch == ' ')))
            match classes with
            | c :: _ => some ("." ++ String.mk c)
            | [] => none
          else none
      | none => none
    match classSel with
    | some s => s
    | none =>
        let s0 := e.tagName.toLower
        let s1 := if e.typeAttr ≠ "" then
            s0 ++ "[type=\x22" ++ e.typeAttr ++ "\x22]" else s0
        let s2 := if e.nameAttr ≠ "" then
            s1 ++ "[name=\x22" ++ e.nameAttr ++ "\x22]" else s1
        if e.placeholder ≠ "" then
          s2 ++ "[placeholder=\x22" ++ e.placeholder ++ "\x22]" else s2

/-- The selector synthesis contract as the specification words it: a
non-empty `id` yields `#id`; otherwise the first non-empty class token yields
`.class`; otherwise the lowercase tag name with an attribute-equality clause
appended for each of `type`, `name`, `placeholder` that is present, in that
order.  Written from the specification to compare against the source
embedding `generateSelector`. -/
def selectorSpec (e : ElementDesc) : String :=
  if e.id ≠ "" then "#" ++ e.id
  else
    let tokens :=
      match e.className with
      | some cn => (charSplit ' ' cn.toList).filter (fun c => c ≠ [])
      | none => []
    match tokens with
    | c :: _ => "." ++ String.mk c
    | [] =>
        let base := e.tagName.toLower
        let withType := if e.typeAttr ≠ "" then
            base ++ "[type=\x22" ++ e.typeAttr ++ "\x22]" else base
        let withName := if e.nameAttr ≠ "" then
            withType ++ "[name=\x22" ++ e.nameAttr ++ "\x22]" else withType
        if e.placeholder ≠ "" then
          withName ++ "[placeholder=\x22" ++ e.placeholder ++ "\x22]" else withName

/-! ## Script codegen (`generateScript`, MacroRecorder.tsx 704–744) -/

/-- Template-literal rendering of an optional string property: JS prints
`undefined` for an absent property. -/
def optStr : Option String → String
  | some s => s
  | none => "undefined"

/-- Truthiness of an optional string property (absent or empty is falsy). -/
def truthyStr : Option String → Bool
  | some s => s ≠ ""
  | none => false

/-- `action.url || window.location.href` (line 706). -/
def effectiveUrl (href : String) (a : MacroAction) : String :=
  match a.url with
  | some u => if u ≠ "" then u else href
  | none => href

/-- One step of the `reduce` at lines 705–710: push the action onto its URL
group, creating the group at the end on first sight (JS object insertion
order; the URL keys here are never array-index strings, so `Object.entries`
later yields them in first-insertion order). -/
def groupInsert (groups : List (String × List MacroAction)) (url : String)
    (a : MacroAction) : List (String × List MacroAction) :=
  match groups with
  | [] => [(url, [a])]
  | (u, as) :: rest =>
      if u == url then (u, as ++ [a]) :: rest
      else (u, as) :: groupInsert rest url a

/-- The `groupedByUrl` record of lines 705–710, as an ordered association
list. -/
def groupedByUrl (href : String) (actions : List MacroAction) :
    List (String × List MacroAction) :=
  actions.foldl (fun acc a => groupInsert acc (effectiveUrl href a) a) []

/-- The per-action automation statement (the `switch` at lines 713–724). -/
def actionStatement (a : MacroAction) : String :=
  match a.type with
  | .click =>
      "  await page.click(\x27" ++ optStr a.selector ++ "\x27); // Click on "
        ++ optStr a.element
        ++ (if truthyStr a.text then " - \x22" ++ optStr a.text ++ "\x22" else "")
  | .input =>
      "  await page.fill(\x27" ++ optStr a.selector ++ "\x27, \x27"
        ++ optStr a.value ++ "\x27); // Input: " ++ optStr a.value
  | .keypress =>
      "  await page.keyboard.press(\x27" ++ optStr a.value ++ "\x27); // Key: "
        ++ optStr a.value
  | t => "  // " ++ t.asString ++ ": " ++ optStr a.element

/-- The per-URL block of lines 712–727. -/
def urlBlock (url : String) (urlActions : List MacroAction) : String :=
  "  // Actions for " ++ url ++ "\n  await page.goto(\x27" ++ url ++ "\x27);\n"
    ++ String.intercalate "\n" (urlActions.map actionStatement)

/-- `Math.round((now - startTime) / 1000)`, i.e. `⌊(d + 500) / 1000⌋` on the
integer-millisecond model. -/
def jsRoundSeconds (d : Int) : Int := Int.fdiv (d + 500) 1000

/-- The recording-duration header value,
`startTime ? Math.round((Date.now() - startTime) / 1000) : 0` (line 732):
a `null` (or `0`, falsy) start time prints `0`. -/
def durationSeconds (startTime : Option Int) (now : Int) : Int :=
  match startTime with
  | some t => if t ≠ 0 then jsRoundSeconds (now - t) else 0
  | none => 0

/-- Embedding of `generateScript` (MacroRecorder.tsx lines 704–744).  The
ambient state the arrow function reads is passed explicitly: `href` is
`window.location.href`, `startTime` the component's `startTime` state
(`none` models `null`), `now` the value of `Date.now()` at the invocation,
and `actions` the component's ordered action list. -/
def generateScript (href : String) (startTime : Option Int) (now : Int)
    (actions : List MacroAction) : String :=
  let groups := groupedByUrl href actions
  let scripts := String.intercalate "\n\n"
    (groups.map (fun g => urlBlock g.1 g.2))
  let duration : Int := durationSeconds startTime now
  "// Generated Cross-Website Automation Script\n// Total actions: "
    ++ toString actions.length
    ++ "\n// Websites: " ++ toString groups.length
    ++ "\n// Recording duration: " ++ toString duration ++ "s\n\nconst \x7b chromium \x7d = require(\x27playwright\x27);\n\n(async () => \x7b\n  const browser = await chromium.launch(\x7b headless: false \x7d);\n  const page = await browser.newPage();\n  \n"
    ++ scripts
    ++ "\n  \n  await browser.close();\n\x7d)();"

/-! ## Cross-context message handling (MacroRecorder.tsx 474–495) -/

/-- The controller-side recording state touched by the message handler. -/
structure RecorderState where
  actions : List MacroAction
  isRecording : Bool
  deriving Repr

/-- A message delivered to the controller window, as the handler reads
`event.data`: `MACRO_ACTION` carries one action, `MACRO_COMPLETE` carries the
recording context's full action list; anything else is ignored. -/
inductive RecorderMessage where
  | macroAction (action : MacroAction)
  | macroComplete (actions : List MacroAction) (url : String)
  | other

/-- Embedding of the `messageHandler` effect on state (MacroRecorder.tsx
lines 475–487): `MACRO_ACTION` appends the delivered action, `MACRO_COMPLETE`
appends the delivered list and stops recording.  No deduplication is
performed. -/
def handleMessage (st : RecorderState) (m : RecorderMessage) : RecorderState :=
  match m with
  | .macroAction a => { st with actions := st.actions ++ [a] }
  | .macroComplete as _ => { actions := st.actions ++ as, isRecording := false }
  | .other => st

/-- Deliver a sequence of messages to the controller. -/
def handleMessages (st : RecorderState) (ms : List RecorderMessage) :
    RecorderState :=
  ms.foldl handleMessage st

/-- Number of actions carrying a given id in a list. -/
def countById (as : List MacroAction) (i : String) : Nat :=
  as.countP (fun a => a.id == i)

/-! ## Action-replay executor (`workflowExecutor.ts`) -/

/-- Outcome record of `WorkflowExecutor.executeWorkflow` (interface
`ExecutionResult`; the wall-clock `duration` field is omitted). -/
structure ExecutionResult where
  success : Bool
  message : String
  error : Option String := none
  executedActions : Nat
  totalActions : Nat
  deriving Repr, DecidableEq

/-- The `status` field of an execution log entry. -/
inductive ExecLogStatus where
  | running | completed | failed | paused
  deriving Repr, DecidableEq

/-- An execution log entry (interface `ExecutionLog`; the wall-clock
`timestamp` and the generated `id` are omitted). -/
structure ExecutionLogEntry where
  workflowId : String
  status : ExecLogStatus
  result : Option ExecutionResult
  actions : List MacroAction

/-- The `for` loop of `executeWorkflow` (workflowExecutor.ts lines 53–64):
run the actions in order, counting `executedActions`; the first action whose
dispatch throws aborts the loop with that error.  `execAction` is the oracle
for `executeAction` — the source's per-type DOM dispatch (`simulateClick`,
`simulateInput`, …), which can throw, e.g. when `document.querySelector` is
given a syntactically invalid selector; `some msg` models a thrown error with
message `msg` (a throw from the caller's `onProgress` callback lands in the
same `catch` and is covered by the same oracle). -/
def executorRunActions (execAction : MacroAction → Option String) :
    List MacroAction → Nat → Except String Nat
  | [], executed => .ok executed
  | a :: rest, executed =>
      match execAction a with
      | some e => .error e
      | none => executorRunActions execAction rest (executed + 1)

/-- Embedding of `WorkflowExecutor.executeWorkflow` (workflowExecutor.ts
lines 33–97): the method never rejects — both branches resolve with an
`ExecutionResult` — and the pushed execution log entry ends in status
`completed` or `failed` accordingly.  On a throw the result carries
`success := false`, the error message, and `executedActions := 0` (the
source hard-codes `0` in its catch block). -/
def executorExecuteWorkflow (execAction : MacroAction → Option String)
    (workflowId : String) (actions : List MacroAction) :
    ExecutionResult × ExecutionLogEntry :=
  match executorRunActions execAction actions 0 with
  | .ok n =>
      let result : ExecutionResult :=
        { success := true
          message := "Successfully executed " ++ toString n ++ " actions"
          executedActions := n
          totalActions := actions.length }
      (result,
       { workflowId := workflowId, status := .completed,
         result := some result, actions := actions })
  | .error e =>
      let result : ExecutionResult :=
        { success := false
          message := "Workflow execution failed"
          error := some e
          executedActions := 0
          totalActions := actions.length }
      (result,
       { workflowId := workflowId, status := .failed,
         result := some result, actions := actions })

/-! ## Workflow graph model (`WorkflowExecutionEngine.ts` interfaces) -/

/-- The `type` field of a `WorkflowNode` (a closed union in the source, so
the `default: throw "Unknown node type"` arm of `executeNode` is
unreachable). -/
inductive NodeType where
  | trigger | action | condition | delay
  deriving Repr, DecidableEq

/-- A node of a workflow graph (interface `WorkflowNode`,
WorkflowExecutionEngine.ts lines 9–18; the UI-only `position` field is
omitted).  `connections` is the node's list of outgoing node ids. -/
structure WorkflowNode where
  id : String
  type : NodeType
  title : String := ""
  description : String := ""
  service : Option String := none
  config : List (String × JsValue) := []
  connections : List String := []

/-- A workflow graph (interface `WorkflowTemplate`, lines 20–27). -/
structure WorkflowTemplate where
  id : String
  name : String := ""
  description : String := ""
  category : String := ""
  nodes : List WorkflowNode
  connections : List (String × String) := []

/-- Log entry level (`'info' | 'warn' | 'error' | 'success'`). -/
inductive LogLevel where
  | info | warn | error | success
  deriving Repr, DecidableEq

/-- One entry of `ExecutionContext.logs` (the wall-clock `timestamp` field is
omitted; some log texts in the source interpolate millisecond durations,
which are likewise omitted from the modelled messages). -/
structure LogEntry where
  nodeId : String
  message : String
  level : LogLevel
  deriving Repr, DecidableEq

/-- Per-run scratch state (interface `ExecutionContext`, lines 29–38).  The
source field `variables` is called `vars` here because `variables` is a
reserved word in Lean 4. -/
structure ExecutionContext where
  vars : List (String × JsValue)
  results : List (String × JsValue)
  logs : List LogEntry

/-- Status values an `onProgress` callback receives. -/
inductive ProgressStatus where
  | running | completed | error
  deriving Repr, DecidableEq

/-- The observable state of one engine run: the execution context, the
sequence of `onProgress` invocations, the key set of `nodeExecutionTimes`
(values are wall-clock durations, outside the model), and the `setTimeout`
suspensions performed by delay nodes, in milliseconds. -/
structure EngineState where
  ctx : ExecutionContext
  progress : List (String × ProgressStatus × String)
  nodeTimes : List String
  delaysMs : List (String × Int)

/-- Append a log entry (`private log`, lines 601–611). -/
def logCtx (ctx : ExecutionContext) (level : LogLevel) (nodeId message : String) :
    ExecutionContext :=
  { ctx with logs := ctx.logs ++ [{ nodeId := nodeId, message := message, level := level }] }

/-- Append a log entry to the engine state. -/
def logSt (st : EngineState) (level : LogLevel) (nodeId message : String) :
    EngineState :=
  { st with ctx := logCtx st.ctx level nodeId message }

/-- Record an `onProgress` invocation. -/
def progressSt (st : EngineState) (nodeId : String) (status : ProgressStatus)
    (message : String) : EngineState :=
  { st with progress := st.progress ++ [(nodeId, status, message)] }

/-- `this.nodeExecutionTimes[node.id] = …`: adds the key on first write,
overwrites (no new key) afterwards. -/
def recordTime (st : EngineState) (nodeId : String) : EngineState :=
  if st.nodeTimes.contains nodeId then st
  else { st with nodeTimes := st.nodeTimes ++ [nodeId] }

/-! ## Condition evaluation (`executeCondition`, lines 245–280) -/

/-- The whitespace class of the source's `\s` regex escape, on the characters
the code paths can meet. -/
def isJsSpace (c : Char) : Bool :=
  c == ' ' || c == '\t' || c == '\n' || c == '\r'

/-- Characters of the regex class `[><=]`. -/
def isOpChar (c : Char) : Bool :=
  c == '>' || c == '<' || c == '='

/-- List-level prefix test. -/
def hasPrefixList : List Char → List Char → Bool
  | [], _ => true
  | _ :: _, [] => false
  | p :: ps, c :: cs => p == c && hasPrefixList ps cs

/-- `String.prototype.includes` on character lists. -/
def containsSub (needle : List Char) : List Char → Bool
  | [] => hasPrefixList needle []
  | c :: cs => hasPrefixList needle (c :: cs) || containsSub needle cs

/-- `parseInt` on a run of decimal digits. -/
def digitsToNat (ds : List Char) : Nat :=
  ds.foldl (fun n c => 10 * n + (c.toNat - 48)) 0

/-- Attempt to match the regex `email_count\s*([><=]+)\s*(\d+)` at the head
of the character list, returning the captured operator string and number. -/
def matchEmailCountAt (cs : List Char) : Option (String × Nat) :=
  if hasPrefixList ("email_count".toList) cs then
    let r1 := cs.drop ("email_count".toList.length)
    let r2 := r1.dropWhile isJsSpace
    let ops := r2.takeWhile isOpChar
    if ops.isEmpty then none
    else
      let r3 := (r2.dropWhile isOpChar).dropWhile isJsSpace
      let ds := r3.takeWhile Char.isDigit
      if ds.isEmpty then none
      else some (String.mk ops, digitsToNat ds)
  else none

/-- Unanchored regex search: the leftmost position where
`email_count\s*([><=]+)\s*(\d+)` matches (the quantifiers are greedy over
disjoint character classes, so no backtracking arises). -/
def searchEmailCount : List Char → Option (String × Nat)
  | [] => none
  | c :: cs =>
      match matchEmailCountAt (c :: cs) with
      | some r => some r
      | none => searchEmailCount cs

/-- `this.context.variables.gmailMessages?.length || 0` (line 256): the
length of the stored message array; strings also expose `length`; any other
shape has no `length` property and falls to `0` (a plain object carrying a
numeric `length` property of its own is read as in JS). -/
def emailCountOf (vars : List (String × JsValue)) : Int :=
  match jsGet vars "gmailMessages" with
  | some (.list l) => (l.length : Int)
  | some (.str s) => (s.length : Int)
  | some (.obj m) =>
      match jsGet m "length" with
      | some (.num n) => if n ≠ 0 then n else 0
      | _ => 0
  | _ => 0

/-- `node.config.condition as string || 'true'` (line 246). -/
def conditionOf (node : WorkflowNode) : JsValue :=
  jsOr (jsGet node.config "condition") (.str "true")

/-- The condition evaluation of lines 248–276, including the `try`/`catch`
that maps a thrown `TypeError` (from calling string methods on a non-string
condition value) to `result = false`.  Only conditions containing
`email_count` are parsed; the final `else` makes every other expression
`true`. -/
def evalConditionCode (cond : JsValue) (vars : List (String × JsValue)) : Bool :=
  match cond with
  | .str s =>
      if s = "true" then true
      else if s = "false" then false
      else if containsSub ("email_count".toList) s.toList then
        match searchEmailCount s.toList with
        | some (op, k) =>
            let ec := emailCountOf vars
            if op = ">" then ec > (k : Int)
            else if op = "<" then ec < (k : Int)
            else if op = ">=" then ec ≥ (k : Int)
            else if op = "<=" then ec ≤ (k : Int)
            else if op = "==" then ec = (k : Int)
            else true
        | none => false
      else true
  | .num _ => false
  | .bool _ => false
  | .obj _ => false
  | .list l =>
      if l.any (fun v => match v with | .str s => s == "email_count" | _ => false)
      then false
      else true

/-- Embedding of `executeCondition` (lines 245–280): never throws, stores the
boolean under `variables["<nodeId>_result"]`, and logs the outcome. -/
def executeCondition (node : WorkflowNode) (ctx : ExecutionContext) :
    ExecutionContext :=
  let cond := conditionOf node
  let result := evalConditionCode cond ctx.vars
  let ctx1 := { ctx with
    vars := jsSet ctx.vars (node.id ++ "_result") (.bool result) }
  logCtx ctx1 .info node.id
    ("Condition \x22" ++ jsDisplay cond ++ "\x22 evaluated to: "
      ++ (if result then "true" else "false"))

/-! ## Delay nodes (`executeDelay`, lines 282–286) -/

/-- `Number(s)` on the integer fragment of JS numeric strings: optional
whitespace and sign around decimal digits; the empty (or all-whitespace)
string is `0`; anything else is `NaN` (`none`).  Fractional, exponent and hex
forms do not occur in the sources. -/
def jsStringToInt (s : String) : Option Int :=
  let cs := (s.toList.dropWhile isJsSpace).reverse.dropWhile isJsSpace |>.reverse
  match cs with
  | [] => some 0
  | '-' :: ds => if ds ≠ [] && ds.all Char.isDigit then some (-(digitsToNat ds : Int)) else none
  | '+' :: ds => if ds ≠ [] && ds.all Char.isDigit then some ((digitsToNat ds : Int)) else none
  | ds => if ds.all Char.isDigit then some ((digitsToNat ds : Int)) else none

/-- JS numeric coercion of a value, `none` modelling `NaN`. -/
def jsToNumber : JsValue → Option Int
  | .num n => some n
  | .bool b => some (if b then 1 else 0)
  | .str s => jsStringToInt s
  | .list [] => some 0
  | .list [v] => jsToNumber v
  | .list _ => none
  | .obj _ => none

/-- The wait `setTimeout(resolve, duration * 1000)` actually performs:
`NaN` and negative timeouts fire immediately (clamped to `0`). -/
def setTimeoutMs (requested : Option Int) : Int :=
  match requested with
  | none => 0
  | some n => max n 0

/-- Embedding of `executeDelay` (lines 282–286): the duration is
`(node.config.duration as number) || 1` — any falsy value (absent, `0`,
`false`, `""`) defaults to `1` — and the traversal suspends for
`setTimeout(resolve, duration * 1000)`.  Returns the updated context and the
milliseconds actually waited. -/
def executeDelay (node : WorkflowNode) (ctx : ExecutionContext) :
    ExecutionContext × Int :=
  let duration := jsOr (jsGet node.config "duration") (.num 1)
  let waitMs := setTimeoutMs ((jsToNumber duration).map (· * 1000))
  (logCtx ctx .info node.id
    ("Waiting for " ++ jsDisplay duration ++ " seconds..."), waitMs)

/-! ## Service dispatch (`executeTrigger` / `executeAction`, lines 206–429)

The Gmail, Drive and GitHub API wrappers are external collaborators (spec
§1 OUT OF SCOPE); they are modelled as oracle functions at exactly the
method boundaries where the engine calls them.  The terminal action is
embedded concretely down to `TerminalService.executeScript`, whose local
command simulation is the oracle `terminalExec`. -/

/-- Oracles for the external collaborators the engine dispatches to.
`gmailGetMessages` abstracts `GmailService.getMessages` with the
config-derived filter (demo implementation returns canned messages);
`driveListFiles` abstracts `DriveService.listFiles`; `githubGetIssues`
abstracts `GitHubService.getIssues`; `gmailAction` / `driveAction` /
`githubAction` abstract the per-action-type switches of
`executeGmailAction` / `executeDriveAction` / `executeGitHubAction`, which
orchestrate further API-wrapper calls (`some msg` models a throw);
`terminalExec` abstracts `TerminalService.executeScript`, returning one
command-result object per executed command. -/
structure ServiceOracle where
  gmailGetMessages : WorkflowNode → List JsValue
  driveListFiles : WorkflowNode → List JsValue
  githubGetIssues : WorkflowNode → List JsValue
  gmailAction : WorkflowNode → ExecutionContext → ExecutionContext × Option String
  driveAction : WorkflowNode → ExecutionContext → ExecutionContext × Option String
  githubAction : WorkflowNode → ExecutionContext → ExecutionContext × Option String
  terminalExec : List String → List JsValue

/-- Which services `initializeServices` instantiated for this run. -/
structure InitFlags where
  gmail : Bool := false
  drive : Bool := false
  github : Bool := false
  terminal : Bool := false

/-- Property read on an arbitrary value (`r.success`): `none` models
`undefined`, which is falsy. -/
def jsProp (v : JsValue) (k : String) : Option JsValue :=
  match v with
  | .obj m => jsGet m k
  | _ => none

/-- `executeGmailTrigger` (lines 289–305): throws if the Gmail service was
not initialized, otherwise fetches messages, seeds
`variables.gmailMessages`, and stores `{messageCount}` under the node id. -/
def executeGmailTrigger (oracle : ServiceOracle) (inits : InitFlags)
    (node : WorkflowNode) (ctx : ExecutionContext) :
    ExecutionContext × Option String :=
  if !inits.gmail then (ctx, some "Gmail service not initialized")
  else
    let messages := oracle.gmailGetMessages node
    let ctx1 := { ctx with
      vars := jsSet ctx.vars "gmailMessages" (.list messages)
      results := jsSet ctx.results node.id
        (.obj [("messageCount", .num messages.length)]) }
    (logCtx ctx1 .info node.id
      ("Found " ++ toString messages.length ++ " matching emails"), none)

/-- `executeDriveTrigger` (lines 330–341). -/
def executeDriveTrigger (oracle : ServiceOracle) (inits : InitFlags)
    (node : WorkflowNode) (ctx : ExecutionContext) :
    ExecutionContext × Option String :=
  if !inits.drive then (ctx, some "Google Drive service not initialized")
  else
    let files := oracle.driveListFiles node
    let ctx1 := { ctx with
      vars := jsSet ctx.vars "driveFiles" (.list files)
      results := jsSet ctx.results node.id
        (.obj [("fileCount", .num files.length)]) }
    (logCtx ctx1 .info node.id
      ("Found " ++ toString files.length ++ " files in Drive folder"), none)

/-- `node.config.repo as string || node.config.repository as string`. -/
def repoOf (node : WorkflowNode) : JsValue :=
  match jsGet node.config "repo" with
  | some v => if jsTruthy v then v else jsOr (jsGet node.config "repository") (.bool false)
  | none => jsOr (jsGet node.config "repository") (.bool false)

/-- `executeGitHubTrigger` (lines 366–379): with no truthy repo configured
the trigger does nothing. -/
def executeGitHubTrigger (oracle : ServiceOracle) (inits : InitFlags)
    (node : WorkflowNode) (ctx : ExecutionContext) :
    ExecutionContext × Option String :=
  if !inits.github then (ctx, some "GitHub service not initialized")
  else
    let repo := repoOf node
    if jsTruthy repo then
      let issues := oracle.githubGetIssues node
      let ctx1 := { ctx with
        vars := jsSet ctx.vars "githubIssues" (.list issues)
        results := jsSet ctx.results node.id
          (.obj [("issueCount", .num issues.length)]) }
      (logCtx ctx1 .info node.id
        ("Found " ++ toString issues.length ++ " open issues in "
          ++ jsDisplay repo), none)
    else (ctx, none)

/-- `executeTrigger` (lines 206–224): dispatch on `node.service`. -/
def executeTrigger (oracle : ServiceOracle) (inits : InitFlags)
    (node : WorkflowNode) (ctx : ExecutionContext) :
    ExecutionContext × Option String :=
  match node.service with
  | some "gmail" => executeGmailTrigger oracle inits node ctx
  | some "github" => executeGitHubTrigger oracle inits node ctx
  | some "drive" => executeDriveTrigger oracle inits node ctx
  | some "manual" => (logCtx ctx .info node.id "Manual trigger activated", none)
  | _ => (logCtx ctx .info node.id "Generic trigger executed", none)

/-- `config.commands as string || config.command as string` (line 412). -/
def commandsOf (node : WorkflowNode) : Option JsValue :=
  match jsGet node.config "commands" with
  | some v => if jsTruthy v then some v else jsGet node.config "command"
  | none => jsGet node.config "command"

/-- `executeTerminalAction` (lines 407–429): throws when no commands are
configured; otherwise splits the command string on newlines, drops blank
lines, runs the list through `TerminalService.executeScript` (the
`terminalExec` oracle), and stores the summary object under the node id.
A truthy non-string `commands` value makes `commands.split` throw a
`TypeError`, modelled by its message. -/
def executeTerminalAction (oracle : ServiceOracle) (inits : InitFlags)
    (node : WorkflowNode) (ctx : ExecutionContext) :
    ExecutionContext × Option String :=
  if !inits.terminal then (ctx, some "Terminal service not initialized")
  else
    match commandsOf node with
    | some v =>
        if !jsTruthy v then (ctx, some "No commands specified for terminal action")
        else
          match v with
          | .str s =>
              let commandList := (s.splitOn "\n").filter (fun cmd => cmd.trim ≠ "")
              let rs := oracle.terminalExec commandList
              let successCount := rs.countP (fun r =>
                match jsProp r "success" with
                | some sv => jsTruthy sv
                | none => false)
              let ctx1 := { ctx with
                results := jsSet ctx.results node.id
                  (.obj [("commandsExecuted", .num rs.length),
                         ("successfulCommands", .num successCount),
                         ("results", .list rs)]) }
              (logCtx ctx1 .info node.id
                ("Executed " ++ toString rs.length ++ " commands, "
                  ++ toString successCount ++ " successful"), none)
          | _ => (ctx, some "commands.split is not a function")
    | none => (ctx, some "No commands specified for terminal action")

/-- `executeAction` (lines 226–243): dispatch on `node.service`.  The Gmail,
Drive and GitHub branches first perform the engine's own
service-initialized check and then run the per-action-type switch through
the corresponding oracle. -/
def executeAction (oracle : ServiceOracle) (inits : InitFlags)
    (node : WorkflowNode) (ctx : ExecutionContext) :
    ExecutionContext × Option String :=
  match node.service with
  | some "gmail" =>
      if !inits.gmail then (ctx, some "Gmail service not initialized")
      else oracle.gmailAction node ctx
  | some "drive" =>
      if !inits.drive then (ctx, some "Google Drive service not initialized")
      else oracle.driveAction node ctx
  | some "github" =>
      if !inits.github then (ctx, some "GitHub service not initialized")
      else oracle.githubAction node ctx
  | some "terminal" => executeTerminalAction oracle inits node ctx
  | _ => (logCtx ctx .info node.id "Generic action executed", none)

/-! ## Graph traversal (`executeNode`, lines 154–204) -/

/-- Result of a (sub)traversal: normal completion, an exception propagating
to the caller (carrying the state at the moment it escapes), or fuel
exhaustion.  The source has no fuel: `fuelOut` for every fuel bound is the
embedding's rendering of a non-terminating traversal. -/
inductive RunOutcome where
  | ok (st : EngineState)
  | threw (msg : String) (st : EngineState)
  | fuelOut (st : EngineState)

/-- The engine state carried by an outcome. -/
def RunOutcome.state : RunOutcome → EngineState
  | .ok st => st
  | .threw _ st => st
  | .fuelOut st => st

/-- Fuel-exhaustion discriminator. -/
def RunOutcome.isFuelOut : RunOutcome → Bool
  | .fuelOut _ => true
  | _ => false

/-- The body `switch (node.type)` of `executeNode` (lines 164–179); returns
the updated state and `some msg` when the node throws. -/
def nodeBody (oracle : ServiceOracle) (inits : InitFlags)
    (node : WorkflowNode) (st : EngineState) : EngineState × Option String :=
  match node.type with
  | .trigger =>
      let (ctx, e) := executeTrigger oracle inits node st.ctx
      ({ st with ctx := ctx }, e)
  | .action =>
      let (ctx, e) := executeAction oracle inits node st.ctx
      ({ st with ctx := ctx }, e)
  | .condition => ({ st with ctx := executeCondition node st.ctx }, none)
  | .delay =>
      let (ctx, ms) := executeDelay node st.ctx
      ({ st with ctx := ctx, delaysMs := st.delaysMs ++ [(node.id, ms)] }, none)

/-- The `catch` block of `executeNode` (lines 195–203): record the node's
execution time, log the failure, report `error` through `onProgress`, and
rethrow. -/
def nodeCatch (node : WorkflowNode) (msg : String) (st : EngineState) :
    RunOutcome :=
  let st1 := recordTime st node.id
  let st2 := logSt st1 .error node.id ("Node failed: " ++ msg)
  let st3 := progressSt st2 node.id .error ("Error: " ++ msg)
  .threw msg st3

/-- The effect of `executeNode`'s `try`/`catch` on the outcome of the
connections loop: an exception thrown by a connected node's subtree is
caught at this level, re-logged and re-reported via `nodeCatch`, and
rethrown; other outcomes pass through. -/
def rethrough (node : WorkflowNode) : RunOutcome → RunOutcome
  | .threw msg stE => nodeCatch node msg stE
  | r => r

/-- Embedding of `executeNode` (lines 154–204): log and report `running`,
run the node body, then on success log/report completion and recursively
execute each connected node in order; the first connected node that throws
aborts the loop and the error is re-caught (and re-reported) at every level
it unwinds through.  The source tracks no visited set: recursion is bounded
here only by the explicit `fuel` parameter, which decreases by one per
nesting level. -/
def executeNode (oracle : ServiceOracle) (wf : WorkflowTemplate)
    (inits : InitFlags) : Nat → WorkflowNode → EngineState → RunOutcome
  | 0, _, st => .fuelOut st
  | fuel + 1, node, st =>
      let st1 := logSt st .info node.id ("Executing node: " ++ node.title)
      let st2 := progressSt st1 node.id .running ("Executing: " ++ node.title)
      match nodeBody oracle inits node st2 with
      | (st3, some msg) => nodeCatch node msg st3
      | (st3, none) =>
          let st4 := recordTime st3 node.id
          let st5 := logSt st4 .success node.id ("Node completed: " ++ node.title)
          let st6 := progressSt st5 node.id .completed ("Completed: " ++ node.title)
          rethrough node
            (node.connections.foldl
              (fun (acc : RunOutcome) (cid : String) =>
                match acc with
                | .ok stc =>
                    match wf.nodes.find? (fun n => n.id == cid) with
                    | some n => executeNode oracle wf inits fuel n stc
                    | none => .ok stc
                | r => r)
              (RunOutcome.ok st6))

/-! ## Run driver (`executeWorkflow` / `initializeServices`, lines 66–152) -/

/-- The distinct `service` capability names referenced by the graph
(lines 101–106; falsy, i.e. empty, service strings are filtered out). -/
def usedServices (wf : WorkflowTemplate) : List String :=
  wf.nodes.filterMap (fun n =>
    match n.service with
    | some s => if s ≠ "" then some s else none
    | none => none)

/-- Embedding of `initializeServices` (lines 101–152): instantiate and log
each demo service the graph references, in the fixed order gmail, drive,
github, terminal.  The demo `authenticate()` methods always resolve (their
boolean result is ignored by the engine), so initialization never throws. -/
def initializeServices (wf : WorkflowTemplate) (st : EngineState) :
    InitFlags × EngineState :=
  let used := usedServices wf
  let entry := fun (m : String) =>
    ({ nodeId := "service-init", message := m, level := .info } : LogEntry)
  let newLogs :=
    (if used.contains "gmail" then [entry "Gmail service initialized"] else [])
    ++ (if used.contains "drive" then [entry "Google Drive service initialized"] else [])
    ++ (if used.contains "github" then [entry "GitHub service initialized"] else [])
    ++ (if used.contains "terminal" then [entry "Terminal service initialized"] else [])
  ({ gmail := used.contains "gmail", drive := used.contains "drive",
     github := used.contains "github", terminal := used.contains "terminal" },
   { st with ctx := { st.ctx with logs := st.ctx.logs ++ newLogs } })

/-- The fresh per-run state the engine constructor builds. -/
def initialEngineState : EngineState :=
  { ctx := { vars := [], results := [], logs := [] },
    progress := [], nodeTimes := [], delaysMs := [] }

/-- `calculateMetrics` (lines 583–599) as the value stored under
`variables.executionMetrics`; the wall-clock fields (`executionTime`,
`avgNodeTime`) and the derived float `successRate` are outside the integer
model and omitted. -/
def metricsValue (wf : WorkflowTemplate) (st : EngineState) : JsValue :=
  let totalNodes := wf.nodes.length
  let completedNodes := st.nodeTimes.length
  .obj [("totalNodes", .num totalNodes),
        ("completedNodes", .num completedNodes),
        ("failedNodes", .num ((totalNodes : Int) - (completedNodes : Int)))]

/-- The tail of `executeWorkflow` after the traversal returns: on success
log the completion and attach metrics to `variables`; on an escaping error
log `workflow-error` and rethrow; fuel exhaustion (the model's rendering of
a traversal still running) passes through. -/
def finishRun (wf : WorkflowTemplate) (r : RunOutcome) : RunOutcome :=
  match r with
  | .ok st2 =>
      let st3 := logSt st2 .success "workflow-complete"
        "Workflow completed successfully"
      .ok { st3 with ctx := { st3.ctx with
        vars := jsSet st3.ctx.vars "executionMetrics" (metricsValue wf st3) } }
  | .threw msg st2 =>
      .threw msg (logSt st2 .error "workflow-error" ("Workflow failed: " ++ msg))
  | .fuelOut st2 => .fuelOut st2

/-- Embedding of `executeWorkflow` (lines 66–99): log the start, initialize
services, fail with `"Workflow must have a trigger node"` when the graph has
no trigger node (the `ValidationError` of the design taxonomy), otherwise
run the traversal from the first trigger node and finish via `finishRun`. -/
def executeWorkflow (oracle : ServiceOracle) (wf : WorkflowTemplate)
    (fuel : Nat) : RunOutcome :=
  let st0 := logSt initialEngineState .info "workflow-start"
    ("Starting workflow: " ++ wf.name)
  let (inits, st1) := initializeServices wf st0
  match wf.nodes.find? (fun n => n.type == NodeType.trigger) with
  | none =>
      let msg := "Workflow must have a trigger node"
      .threw msg (logSt st1 .error "workflow-error" ("Workflow failed: " ++ msg))
  | some t => finishRun wf (executeNode oracle wf inits fuel t st1)

/-! ## Scheduler retry (`AdvancedSchedulingService`,
`executeScheduledWorkflow` / `scheduleRetry`) -/

/-- `ScheduleConfig.retryPolicy`. -/
structure RetryPolicy where
  maxAttempts : Nat
  backoffMultiplier : Nat
  maxDelay : Nat
  deriving Repr, DecidableEq

/-- `ScheduleExecution.status`. -/
inductive ExecStatus where
  | scheduled | running | completed | failed | skipped
  deriving Repr, DecidableEq

/-- The fields of a `ScheduleExecution` record the retry logic reads and
writes. -/
structure ScheduleExecutionRec where
  retryCount : Nat
  status : ExecStatus
  deriving Repr, DecidableEq

/-- Embedding of the failure path of `executeScheduledWorkflow` together
with `scheduleRetry`: every invocation creates a fresh `ScheduleExecution`
with `retryCount: 0`; when the workflow fails, the status is set to
`failed`, and if a retry policy is configured and the (fresh) execution's
`retryCount` is below `maxAttempts`, `scheduleRetry` increments
`retryCount`, computes
`delay = min(maxDelay, 1000 * backoffMultiplier ^ (retryCount - 1))`
(the base unit is the literal `1000` ms), sets the status back to
`scheduled`, and arms a timer for that delay.  Returns the final state of
this invocation's execution record and the delay of the scheduled retry, if
one was armed. -/
def failedRunOutcome (policy : Option RetryPolicy) :
    ScheduleExecutionRec × Option Nat :=
  let exec : ScheduleExecutionRec := { retryCount := 0, status := .failed }
  match policy with
  | some p =>
      if exec.retryCount < p.maxAttempts then
        let rc := exec.retryCount + 1
        let delay := min p.maxDelay (1000 * p.backoffMultiplier ^ (rc - 1))
        ({ retryCount := rc, status := .scheduled }, some delay)
      else (exec, none)
  | none => (exec, none)

/-- The retry delays armed over `n` consecutive failing runs of one
schedule: the timer armed by `scheduleRetry` re-invokes
`executeScheduledWorkflow` on the same schedule, which creates another
fresh execution record, so every failing run goes through
`failedRunOutcome` anew. -/
def consecutiveFailureRetryDelays (policy : Option RetryPolicy) :
    Nat → List Nat
  | 0 => []
  | n + 1 =>
      match (failedRunOutcome policy).2 with
      | some d => d :: consecutiveFailureRetryDelays policy n
      | none => []

/-- The retry schedule the claim (and spec §4.5) describes: an attempt
counter that increments across retries, the k-th retry (1-based attempt
`k`) delayed by `min(maxDelay, baseUnit * backoffMultiplier ^ (k - 1))`,
and no retry once `maxAttempts` attempts are exhausted.  Written from the
specification to compare against the source behaviour. -/
def claimedRetryDelays (p : RetryPolicy) (baseUnit : Nat) : List Nat :=
  (List.range p.maxAttempts).map
    (fun k => min p.maxDelay (baseUnit * p.backoffMultiplier ^ k))

/-! ## Claim-side condition semantics (for claim C4) -/

/-- The condition language the claim describes: the literals `true` and
`false`, plus a single anchored numeric comparison `<name> <op> <number>`
with `op ∈ {>, <, >=, <=, ==}` evaluated against the named entry of
`variables`; `none` where the claim's description assigns no value (no
parse, or the named variable does not hold a number).  Written from the
claim, to compare against the source embedding `evalConditionCode`. -/
def claimConditionEval (s : String) (vars : List (String × JsValue)) :
    Option Bool :=
  if s = "true" then some true
  else if s = "false" then some false
  else
    let cs := s.toList
    let name := cs.takeWhile (fun c => !(isJsSpace c) && !(isOpChar c))
    let r1 := (cs.drop name.length).dropWhile isJsSpace
    let op := r1.takeWhile isOpChar
    let r2 := (r1.dropWhile isOpChar).dropWhile isJsSpace
    let ds := r2.takeWhile Char.isDigit
    let rest := r2.drop ds.length
    if !name.isEmpty && !op.isEmpty && !ds.isEmpty && rest.isEmpty then
      match jsGet vars (String.mk name) with
      | some (.num v) =>
          let k : Int := (digitsToNat ds : Int)
          let o := String.mk op
          if o = ">" then some (decide (v > k))
          else if o = "<" then some (decide (v < k))
          else if o = ">=" then some (decide (v ≥ k))
          else if o = "<=" then some (decide (v ≤ k))
          else if o = "==" then some (decide (v = k))
          else none
      | _ => none
    else none

/-! ## Concrete fixtures used by the theorems below -/

/-- An instantiation of the external-collaborator boundary consistent with
the repository's demo services: the Gmail/Drive/GitHub wrappers return no
data, the abstracted action switches succeed without touching the context,
and the terminal simulation (`TerminalService.simulateCommandExecution`)
reports success for each ordinary command, as the source does. -/
def demoOracle : ServiceOracle :=
  { gmailGetMessages := fun _ => []
    driveListFiles := fun _ => []
    githubGetIssues := fun _ => []
    gmailAction := fun _ ctx => (ctx, none)
    driveAction := fun _ ctx => (ctx, none)
    githubAction := fun _ ctx => (ctx, none)
    terminalExec := fun cmds => cmds.map (fun c =>
      .obj [("success", .bool true), ("exitCode", .num 0), ("command", .str c)]) }

/-- A manual trigger node whose `connections` list points back at itself:
the smallest graph with a back-edge to an already-visited node. -/
def selfLoopNode : WorkflowNode :=
  { id := "t1", type := .trigger, title := "Loop trigger",
    service := some "manual", connections := ["t1"] }

/-- The one-node cyclic workflow graph built from `selfLoopNode`. -/
def cycleWf : WorkflowTemplate :=
  { id := "wf-cycle", name := "cycle", nodes := [selfLoopNode] }

/-- The `InitFlags` `initializeServices` computes for `cycleWf` (the manual
trigger references none of the four demo services). -/
def cycleInits : InitFlags := {}

/-- Trigger of the partial-failure graphs: manual, with two outgoing
branches. -/
def pfTrigger (conns : List String) : WorkflowNode :=
  { id := "t", type := .trigger, title := "T", service := some "manual",
    connections := conns }

/-- Node A: a terminal action with no configured commands — its dispatch
throws `"No commands specified for terminal action"`
(WorkflowExecutionEngine.ts line 415). -/
def pfNodeA : WorkflowNode :=
  { id := "a", type := .action, title := "A", service := some "terminal",
    config := [], connections := ["b"] }

/-- Node B: a terminal action reachable only through A. -/
def pfNodeB : WorkflowNode :=
  { id := "b", type := .action, title := "B", service := some "terminal",
    config := [("commands", .str "pwd")], connections := [] }

/-- Node C: a terminal action that stores its command summary under
`results["c"]` (line 422). -/
def pfNodeC : WorkflowNode :=
  { id := "c", type := .action, title := "C", service := some "terminal",
    config := [("commands", .str "git status")], connections := [] }

/-- The shape trigger → A → B and trigger → C, with the trigger's outgoing
list ordering A before C. -/
def wfABfirst : WorkflowTemplate :=
  { id := "w3", name := "w3", nodes := [pfTrigger ["a", "c"], pfNodeA, pfNodeB, pfNodeC] }

/-- The same shape with the trigger's outgoing list ordering C before A. -/
def wfCfirst : WorkflowTemplate :=
  { id := "w4", name := "w4", nodes := [pfTrigger ["c", "a"], pfNodeA, pfNodeB, pfNodeC] }

/-- A graph with no trigger node (witness for the missing-trigger check). -/
def wfNoTrigger : WorkflowTemplate :=
  { id := "w5", name := "no-trigger",
    nodes := [{ id := "x", type := .action, title := "X" }] }

/-- A condition node whose expression is a numeric comparison over a plain
variable name, as the claimed condition language allows. -/
def scoreCondNode : WorkflowNode :=
  { id := "n1", type := .condition, title := "Check score",
    config := [("condition", .str "score > 5")] }

/-- A context in which `variables.score` is 3. -/
def scoreCtx : ExecutionContext :=
  { vars := [("score", .num 3)], results := [], logs := [] }

/-- A delay node with a negative configured duration. -/
def negDelayNode : WorkflowNode :=
  { id := "d1", type := .delay, title := "D", config := [("duration", .num (-5))] }

/-- An empty execution context. -/
def emptyCtx : ExecutionContext := { vars := [], results := [], logs := [] }

/-- One recorded click action. -/
def clickAction : MacroAction :=
  { id := "action_1", timestamp := 120, type := .click,
    element := some "button", selector := some "#login",
    url := some "https://app.test/", text := some "Login" }

/-- The message sequence an external recording surface produces for one
captured action: a per-action `MACRO_ACTION` send (MacroRecorder.tsx line
301) followed by the `MACRO_COMPLETE` send carrying the full action list
(line 358). -/
def dupDelivery : List RecorderMessage :=
  [.macroAction clickAction, .macroComplete [clickAction] "https://app.test/"]

/-- The error message carried by a `RunOutcome`, when one escaped. -/
def outcomeMsg : RunOutcome → Option String
  | .threw m _ => some m
  | _ => none

/-- First-seen deduplication of a list of keys, as the claim words the
grouping order ("preserving the first-seen order of URLs"). -/
def firstSeen (us : List String) : List String :=
  us.foldl (fun acc u => if acc.contains u then acc else acc ++ [u]) []

/-- The retry policy of claim C2. -/
def c2Policy : RetryPolicy := { maxAttempts := 3, backoffMultiplier := 2, maxDelay := 10000 }

/-- The warning-level entries of a run's log. -/
def warnLogs (ctx : ExecutionContext) : List LogEntry :=
  ctx.logs.filter (fun l => l.level == LogLevel.warn)

/-- The engine state just before traversal of `cycleWf` starts (the
workflow-start log is written; the manual trigger initializes no
services). -/
def cycleStartState : EngineState :=
  logSt initialEngineState .info "workflow-start" "Starting workflow: cycle"

/-- A delay node with a positive configured duration (witness input). -/
def posDelayNode : WorkflowNode :=
  { id := "d2", type := .delay, title := "D2", config := [("duration", .num 3)] }

/-- A condition node over the engine's supported `email_count` pattern. -/
def emailCondNode : WorkflowNode :=
  { id := "n2", type := .condition, title := "Check mail",
    config := [("condition", .str "email_count > 2")] }

/-- A context in which three Gmail messages have been fetched. -/
def gmailCtx : ExecutionContext :=
  { vars := [("gmailMessages", .list [.str "m1", .str "m2", .str "m3"])],
    results := [], logs := [] }

/-! ## Shared lemmas -/

/-- Reading back a key just written by `jsSet`. -/
theorem jsGet_jsSet (m : List (String × JsValue)) (k : String) (v : JsValue) :
    jsGet (jsSet m k v) k = some v := by
  induction m with
  | nil => simp [jsGet, jsSet]
  | cons p rest ih =>
      obtain ⟨k0, v0⟩ := p
      by_cases hk : (k0 == k) = true
      · simp [jsSet, hk, jsGet]
      · simp [jsSet, hk, jsGet, ih]

/-- The catch-and-rethrow wrapper does not change whether an outcome is a
fuel exhaustion. -/
theorem rethrough_isFuelOut (node : WorkflowNode) (r : RunOutcome) :
    (rethrough node r).isFuelOut = r.isFuelOut := by
  cases r <;> rfl

/-- Logging at a non-warning level leaves the warning log unchanged. -/
theorem warnLogs_logCtx (ctx : ExecutionContext) (lvl : LogLevel) (a b : String)
    (h : (lvl == LogLevel.warn) = false) :
    warnLogs (logCtx ctx lvl a b) = warnLogs ctx := by
  simp [warnLogs, logCtx, List.filter_append, h]

/-- The catch-and-rethrow wrapper adds no warning-level log entries. -/
theorem rethrough_warnLogs (node : WorkflowNode) (r : RunOutcome) :
    warnLogs (rethrough node r).state.ctx = warnLogs r.state.ctx := by
  cases r with
  | threw m s =>
      simp [rethrough, nodeCatch, RunOutcome.state, progressSt, logSt, recordTime]
      split <;> simp [warnLogs_logCtx]
  | ok s => rfl
  | fuelOut s => rfl

/-- Traversal of the self-loop graph exhausts every fuel bound — the
embedding's rendering of non-termination — and produces no warning-level
log entries along the way. -/
theorem c1_paired : ∀ fuel (st : EngineState),
    (executeNode demoOracle cycleWf cycleInits fuel selfLoopNode st).isFuelOut = true
    ∧ warnLogs (executeNode demoOracle cycleWf cycleInits fuel selfLoopNode st).state.ctx
        = warnLogs st.ctx := by
  intro fuel
  induction fuel with
  | zero => intro st; exact ⟨rfl, rfl⟩
  | succ n ih =>
      intro st
      rw [executeNode]
      simp only [selfLoopNode, cycleWf, cycleInits, nodeBody, executeTrigger, demoOracle,
        List.foldl, List.find?, beq_self_eq_true, rethrough_isFuelOut, rethrough_warnLogs]
      constructor
      · exact (ih _).1
      · refine ((ih _).2).trans ?_
        simp [recordTime, progressSt, logSt, warnLogs_logCtx]
        split <;> simp [warnLogs_logCtx]

/-- `initializeServices` on the cycle graph initializes nothing (its only
service is `manual`). -/
theorem initCycle (st : EngineState) :
    initializeServices cycleWf st = (cycleInits, st) := by
  simp [initializeServices, usedServices, cycleWf, selfLoopNode, cycleInits]

/-- `finishRun` passes fuel exhaustion through unchanged. -/
theorem finishRun_of_fuelOut (wf : WorkflowTemplate) (r : RunOutcome)
    (h : r.isFuelOut = true) : finishRun wf r = r := by
  cases r <;> simp_all [RunOutcome.isFuelOut, finishRun]

/-- Unfolding `executeWorkflow` on the cycle graph down to the traversal. -/
theorem c1_unfold (fuel : Nat) :
    executeWorkflow demoOracle cycleWf fuel
      = finishRun cycleWf
          (executeNode demoOracle cycleWf cycleInits fuel selfLoopNode cycleStartState) := by
  simp only [executeWorkflow, initCycle, cycleStartState]
  rfl

/-- No token of `split(sep)` contains the separator. -/
theorem charSplit_no_sep (sep : Char) (cs : List Char) :
    ∀ t ∈ charSplit sep cs, sep ∉ t := by
  induction cs with
  | nil =>
      intro t ht
      simp [charSplit] at ht
      subst ht
      simp
  | cons c cs ih =>
      intro t ht
      simp only [charSplit] at ht
      by_cases hc : c == sep
      · rw [if_pos hc] at ht
        rcases List.mem_cons.mp ht with h1 | h2
        · subst h1; simp
        · exact ih t h2
      · rw [if_neg hc] at ht
        cases hrest : charSplit sep cs with
        | nil =>
            rw [hrest] at ht
            simp at ht
            subst ht
            simp
            exact fun hss => hc (by simp [hss.symm])
        | cons t0 ts =>
            rw [hrest] at ht
            rcases List.mem_cons.mp ht with h1 | h2
            · subst h1
              intro hmem
              rcases List.mem_cons.mp hmem with hs | hs
              · exact hc (by simp [hs.symm])
              · exact ih t0 (by rw [hrest]; exact List.mem_cons_self _ _) hs
            · exact ih t (by rw [hrest]; exact List.mem_cons_of_mem _ h2)

/-- On `split(' ')` output, the source's class-token filter
(`c.length > 0 && !c.includes(' ')`) coincides with plain non-emptiness. -/
theorem classes_filter_eq (cn : List Char) :
    (charSplit ' ' cn).filter
        (fun c => decide (0 < c.length) && !(c.any (fun ch => ch == ' ')))
      = (charSplit ' ' cn).filter (fun c => c ≠ []) := by
  apply List.filter_congr
  intro x hx
  have hns := charSplit_no_sep ' ' cn x hx
  have hany : x.any (fun ch => ch == ' ') = false := by
    rw [Bool.eq_false_iff]
    intro hc
    rcases List.any_eq_true.mp hc with ⟨ch, hch, hcheq⟩
    exact hns (by rwa [show ch = ' ' from by simpa using hcheq] at hch)
  rw [hany]
  simp [List.length_pos]

/-- The keys of the URL grouping after one insertion. -/
theorem map_fst_groupInsert (gs : List (String × List MacroAction)) (url : String)
    (a : MacroAction) :
    (groupInsert gs url a).map Prod.fst =
      if (gs.map Prod.fst).contains url then gs.map Prod.fst
      else gs.map Prod.fst ++ [url] := by
  induction gs with
  | nil => simp [groupInsert]
  | cons g rest ih =>
      obtain ⟨u, as⟩ := g
      rw [show groupInsert ((u, as) :: rest) url a
            = (if u == url then (u, as ++ [a]) :: rest
               else (u, as) :: groupInsert rest url a) from rfl]
      by_cases hg : (u == url) = true
      · rw [if_pos hg]
        have hu : u = url := eq_of_beq hg
        rw [List.map_cons, List.map_cons, hu]
        have hcont : (url :: List.map Prod.fst rest).contains url = true := by
          rw [List.contains_cons, beq_self_eq_true, Bool.true_or]
        rw [if_pos hcont]
      · rw [if_neg hg]
        have hur : (url == u) = false := by
          rw [Bool.eq_false_iff]
          intro hcx
          exact hg (by rw [eq_of_beq hcx]; exact beq_self_eq_true u)
        rw [List.map_cons, List.map_cons, ih, List.contains_cons, hur, Bool.false_or]
        by_cases hc : (List.map Prod.fst rest).contains url = true
        · rw [if_pos hc, if_pos hc]
        · rw [if_neg hc, if_neg hc, List.cons_append]

/-- The keys of the URL grouping are the first-seen fold of the actions'
effective URLs. -/
theorem grouped_fst (href : String) (acts : List MacroAction) :
    ∀ acc : List (String × List MacroAction),
      ((acts.foldl (fun acc a => groupInsert acc (effectiveUrl href a) a) acc).map Prod.fst)
        = (acts.map (effectiveUrl href)).foldl
            (fun l u => if l.contains u then l else l ++ [u]) (acc.map Prod.fst) := by
  induction acts with
  | nil => intro acc; simp
  | cons a rest ih =>
      intro acc
      simp only [List.foldl, List.map_cons]
      rw [ih, map_fst_groupInsert]

/-! ## Claim theorems -/

/-- C1.  The claim says `executeWorkflow` terminates on cyclic graphs
because the traversal tracks a visited set, skipping a revisited node and
logging one warning.  The source tracks no visited set: on the graph whose
trigger's `outgoing` points back at itself, the traversal re-executes the
node at every level, so for every fuel bound the run is still going
(never completes normally or exceptionally), and no warning-level log entry
is ever produced — in particular no "skipped: already visited" warning. -/
theorem c1_cycle_traversal_never_completes (fuel : Nat) :
    (executeWorkflow demoOracle cycleWf fuel).isFuelOut = true
    ∧ warnLogs (executeWorkflow demoOracle cycleWf fuel).state.ctx = [] := by
  obtain ⟨h1, h2⟩ := c1_paired fuel cycleStartState
  rw [c1_unfold, finishRun_of_fuelOut _ _ h1]
  exact ⟨h1, by rw [h2]; rfl⟩

/-- C2.  With `retryPolicy = {maxAttempts: 3, backoffMultiplier: 2,
maxDelay: 10000}`, three consecutive failures schedule retries at delays
1000 ms, 1000 ms, 1000 ms — not the claimed 1000/2000/4000 — because each
retry re-enters `executeScheduledWorkflow`, which creates a fresh execution
record with `retryCount: 0`; for the same reason the guard
`retryCount < maxAttempts` always sees 0, so after the third failure a
fourth retry is still armed and the execution record is left `scheduled`,
never terminal `failed`. -/
theorem c2_retry_delays_constant_and_unbounded :
    consecutiveFailureRetryDelays (some c2Policy) 3 = [1000, 1000, 1000]
    ∧ (failedRunOutcome (some c2Policy)).2 = some 1000
    ∧ (failedRunOutcome (some c2Policy)).1.status = ExecStatus.scheduled
    ∧ claimedRetryDelays c2Policy 1000 = [1000, 2000, 4000] :=
  ⟨rfl, rfl, rfl, rfl⟩

/-- C3 counterexample.  In the graph trigger → A → B, trigger → C with the
trigger's outgoing list `["a", "c"]`, node A's throw aborts the trigger's
connections loop before C is ever reached, so `results` does not contain
C's output, contradicting the claim as stated for every graph of this
shape. -/
theorem c3_counterexample_sibling_after_throw_not_run :
    outcomeMsg (executeWorkflow demoOracle wfABfirst 10)
      = some "No commands specified for terminal action"
    ∧ jsGet (executeWorkflow demoOracle wfABfirst 10).state.ctx.results "c" = none
    ∧ jsGet (executeWorkflow demoOracle wfABfirst 10).state.ctx.results "b" = none :=
  ⟨rfl, rfl, rfl⟩

/-- C3 amended.  In the same shape with the trigger's outgoing list ordering
C before A — so C's branch completes before A throws — the run propagates
A's error to the caller, `results` contains C's output but never B's,
`onProgress` reported `error` for node A, A's failure is logged under A's
id, and the results recorded before the failure are preserved in the final
state (no rollback); this holds for every instantiation of the external
service boundary. -/
theorem c3_partial_failure_amended (oracle : ServiceOracle) :
    outcomeMsg (executeWorkflow oracle wfCfirst 10)
      = some "No commands specified for terminal action"
    ∧ (jsGet (executeWorkflow oracle wfCfirst 10).state.ctx.results "c").isSome = true
    ∧ jsGet (executeWorkflow oracle wfCfirst 10).state.ctx.results "b" = none
    ∧ ((executeWorkflow oracle wfCfirst 10).state.progress.contains
        ("a", ProgressStatus.error, "Error: No commands specified for terminal action")) = true
    ∧ ((executeWorkflow oracle wfCfirst 10).state.ctx.logs.contains
        { nodeId := "a",
          message := "Node failed: No commands specified for terminal action",
          level := .error }) = true :=
  ⟨rfl, rfl, rfl, rfl, rfl⟩

/-- C4 counterexample.  The claim says any single comparison
`<name> <op> <number>` is evaluated against `variables`; but for the
condition `"score > 5"` with `variables.score = 3` the source stores
`true` (its final `else` branch), while the claimed semantics yields
`false`. -/
theorem c4_counterexample_plain_comparison_ignored :
    jsGet (executeCondition scoreCondNode scoreCtx).vars "n1_result"
      = some (.bool true)
    ∧ claimConditionEval "score > 5" scoreCtx.vars = some false :=
  ⟨rfl, rfl⟩

/-- C4 amended.  `executeCondition` never throws (it is a total function),
leaves `results` untouched, and stores a boolean under
`variables["<nodeId>_result"]`; the supported expressions are the literals
`true`/`false` and a single comparison of the fixed counter `email_count`
(the number of fetched Gmail messages) matching
`email_count\s*([><=]+)\s*(\d+)`; an expression containing `email_count`
that does not match the pattern yields `false`; every other expression
yields `true`. -/
theorem c4_condition_amended (node : WorkflowNode) (ctx : ExecutionContext) :
    (executeCondition node ctx).results = ctx.results
    ∧ jsGet (executeCondition node ctx).vars (node.id ++ "_result")
        = some (.bool (evalConditionCode (conditionOf node) ctx.vars))
    ∧ (conditionOf node = .str "true" →
        evalConditionCode (conditionOf node) ctx.vars = true)
    ∧ (conditionOf node = .str "false" →
        evalConditionCode (conditionOf node) ctx.vars = false)
    ∧ (∀ s, conditionOf node = .str s → s ≠ "true" → s ≠ "false" →
        containsSub ("email_count".toList) s.toList = false →
        evalConditionCode (conditionOf node) ctx.vars = true)
    ∧ (∀ s op k, conditionOf node = .str s → s ≠ "true" → s ≠ "false" →
        containsSub ("email_count".toList) s.toList = true →
        searchEmailCount s.toList = some (op, k) →
        evalConditionCode (conditionOf node) ctx.vars =
          (if op = ">" then decide (emailCountOf ctx.vars > (k : Int))
           else if op = "<" then decide (emailCountOf ctx.vars < (k : Int))
           else if op = ">=" then decide (emailCountOf ctx.vars ≥ (k : Int))
           else if op = "<=" then decide (emailCountOf ctx.vars ≤ (k : Int))
           else if op = "==" then decide (emailCountOf ctx.vars = (k : Int))
           else true))
    ∧ (∀ s, conditionOf node = .str s → s ≠ "true" → s ≠ "false" →
        containsSub ("email_count".toList) s.toList = true →
        searchEmailCount s.toList = none →
        evalConditionCode (conditionOf node) ctx.vars = false) := by
  refine ⟨?_, ?_, ?_, ?_, ?_, ?_, ?_⟩
  · simp [executeCondition, logCtx]
  · simp [executeCondition, logCtx, jsGet_jsSet]
  · intro h; simp [evalConditionCode, h]
  · intro h; simp [evalConditionCode, h]
  · intro s h h1 h2 h3
    simp only [evalConditionCode, h]
    rw [if_neg h1, if_neg h2, h3]
    simp
  · intro s op k h h1 h2 h3 h4
    simp only [evalConditionCode, h]
    rw [if_neg h1, if_neg h2, h3, h4]
    simp
  · intro s h h1 h2 h3 h4
    simp only [evalConditionCode, h]
    rw [if_neg h1, if_neg h2, h3, h4]
    simp

/-- C4 amended, witness: for the condition `"email_count > 2"` with three
fetched messages the engine stores `true` under
`variables["n2_result"]`. -/
theorem c4_condition_amended_witness :
    evalConditionCode (conditionOf emailCondNode) gmailCtx.vars
      = decide (emailCountOf gmailCtx.vars > (2 : Int))
    ∧ jsGet (executeCondition emailCondNode gmailCtx).vars ("n2" ++ "_result")
        = some (.bool (evalConditionCode (conditionOf emailCondNode) gmailCtx.vars)) := by
  refine ⟨?_, (c4_condition_amended emailCondNode gmailCtx).2.1⟩
  have h6 := (c4_condition_amended emailCondNode gmailCtx).2.2.2.2.2.1
  have h := h6 "email_count > 2" ">" 2 rfl (by decide) (by decide) rfl rfl
  simpa using h

/-- C5.  The selector synthesizer realizes exactly the claimed priority
order — non-empty id gives `#id`; otherwise the first non-empty class token
gives `.token`; otherwise the lowercase tag name with attribute-equality
clauses appended for each of `type`, `name`, `placeholder` present, in that
order — and, being a total function, never throws; with all inputs absent
the fallback chain yields the bare tag name. -/
theorem c5_selector_priority_refines_spec (e : ElementDesc) :
    generateSelector e = selectorSpec e := by
  unfold generateSelector selectorSpec
  by_cases hid : e.id ≠ ""
  · rw [if_pos hid, if_pos hid]
  · rw [if_neg hid, if_neg hid]
    cases hcn : e.className with
    | none => rfl
    | some cn =>
        dsimp only
        by_cases hce : cn ≠ ""
        · rw [if_pos hce, classes_filter_eq]
          cases hcl : (charSplit ' ' cn.toList).filter (fun c => c ≠ []) with
          | nil => rfl
          | cons c rest => rfl
        · rw [if_neg hce]
          push_neg at hce
          subst hce
          rfl

/-- C6 counterexample.  Script generation is not byte-deterministic on the
action list alone: the header line `// Recording duration: …s` interpolates
`Date.now()`, so two invocations on the identical ordered action list, 4.5
seconds apart within one recording session, produce different script
text. -/
theorem c6_counterexample_clock_in_header :
    generateScript "https://app.test/" (some 1000) 1400 [clickAction]
      ≠ generateScript "https://app.test/" (some 1000) 6000 [clickAction] := by
  decide

/-- C6 amended.  The script text is a pure function of the action list, the
window location, the recording start time and the clock reading; whenever
the rounded duration header agrees (in particular at any fixed instant),
the output is byte-identical, and the per-URL grouping lists the URLs in
first-seen order of the actions' effective page URLs. -/
theorem c6_codegen_amended (href : String) (startTime : Option Int) (n1 n2 : Int)
    (acts : List MacroAction)
    (h : durationSeconds startTime n1 = durationSeconds startTime n2) :
    generateScript href startTime n1 acts = generateScript href startTime n2 acts
    ∧ (groupedByUrl href acts).map Prod.fst = firstSeen (acts.map (effectiveUrl href)) := by
  constructor
  · simp only [generateScript, h]
  · simpa [groupedByUrl, firstSeen] using grouped_fst href acts []

/-- C6 amended, witness: 50 ms apart the rounded duration agrees and the
generated scripts are byte-identical. -/
theorem c6_codegen_amended_witness :
    durationSeconds (some 1000) 1400 = durationSeconds (some 1000) 1450
    ∧ generateScript "https://app.test/" (some 1000) 1400 [clickAction]
        = generateScript "https://app.test/" (some 1000) 1450 [clickAction] := by
  have h : durationSeconds (some 1000) 1400 = durationSeconds (some 1000) 1450 := by decide
  exact ⟨h, (c6_codegen_amended "https://app.test/" (some 1000) 1400 1450 [clickAction] h).1⟩

/-- C7.  The claim says the controller deduplicates delivered actions by
Action id.  The message handler appends blindly: delivering one
`MACRO_ACTION` for the action and then the `MACRO_COMPLETE` carrying the
same action — exactly what the injected recording script sends — leaves two
entries with id `"action_1"` in the controller's action list. -/
theorem c7_duplicate_actions_not_deduped :
    countById (handleMessages { actions := [], isRecording := true } dupDelivery).actions
      "action_1" = 2 := rfl

/-- C8.  On any graph with no trigger node, `executeWorkflow` fails with the
`ValidationError` message `"Workflow must have a trigger node"`, and the
failure happens before any node runs: no `onProgress` call is made, no node
execution time is recorded, and no delay is performed. -/
theorem c8_missing_trigger_validation (oracle : ServiceOracle)
    (wf : WorkflowTemplate) (fuel : Nat)
    (h : ∀ n ∈ wf.nodes, n.type ≠ NodeType.trigger) :
    outcomeMsg (executeWorkflow oracle wf fuel) = some "Workflow must have a trigger node"
    ∧ (executeWorkflow oracle wf fuel).state.progress = []
    ∧ (executeWorkflow oracle wf fuel).state.nodeTimes = []
    ∧ (executeWorkflow oracle wf fuel).state.delaysMs = [] := by
  have hf : wf.nodes.find? (fun n => n.type == NodeType.trigger) = none :=
    List.find?_eq_none.mpr (fun x hx => by simpa using h x hx)
  refine ⟨?_, ?_, ?_, ?_⟩ <;> simp only [executeWorkflow, hf] <;> rfl

/-- C8 witness: a concrete trigger-less one-node graph. -/
theorem c8_missing_trigger_validation_witness :
    outcomeMsg (executeWorkflow demoOracle wfNoTrigger 7)
      = some "Workflow must have a trigger node"
    ∧ (executeWorkflow demoOracle wfNoTrigger 7).state.progress = [] := by
  have h : ∀ n ∈ wfNoTrigger.nodes, n.type ≠ NodeType.trigger := by decide
  obtain ⟨h1, h2, h3, h4⟩ := c8_missing_trigger_validation demoOracle wfNoTrigger 7 h
  exact ⟨h1, h2⟩

/-- C9.  `WorkflowExecutor.executeWorkflow` always resolves with an
`ExecutionResult` (both branches of its catch-all return one, mirrored here
by a total function): the log entry carries the result, `totalActions` is
the input length, and the success flag reports the outcome — on a clean run
`success = true` with the executed count and a `completed` log entry; when
any action throws, `success = false` with the thrown message in `error`,
`executedActions = 0` (hard-coded in the catch), and the log entry marked
`failed`. -/
theorem c9_executor_always_resolves (execAction : MacroAction → Option String)
    (wid : String) (acts : List MacroAction) :
    (executorExecuteWorkflow execAction wid acts).1.totalActions = acts.length
    ∧ (executorExecuteWorkflow execAction wid acts).2.result
        = some (executorExecuteWorkflow execAction wid acts).1
    ∧ (match executorRunActions execAction acts 0 with
       | .ok n =>
           (executorExecuteWorkflow execAction wid acts).1.success = true
           ∧ (executorExecuteWorkflow execAction wid acts).1.executedActions = n
           ∧ (executorExecuteWorkflow execAction wid acts).2.status = ExecLogStatus.completed
       | .error e =>
           (executorExecuteWorkflow execAction wid acts).1.success = false
           ∧ (executorExecuteWorkflow execAction wid acts).1.error = some e
           ∧ (executorExecuteWorkflow execAction wid acts).1.executedActions = 0
           ∧ (executorExecuteWorkflow execAction wid acts).2.status = ExecLogStatus.failed) := by
  cases hrun : executorRunActions execAction acts 0 with
  | ok n => simp [executorExecuteWorkflow, hrun]
  | error e => simp [executorExecuteWorkflow, hrun]

/-- C10 counterexample.  The claim says a non-positive `config.duration`
defaults to 1 second; but for `duration = -5` the source keeps the truthy
value, hands `-5000` to `setTimeout`, and the timer fires immediately — the
traversal suspends 0 ms, not 1000 ms. -/
theorem c10_counterexample_negative_duration :
    jsGet negDelayNode.config "duration" = some (.num (-5))
    ∧ (executeDelay negDelayNode emptyCtx).2 = 0
    ∧ (executeDelay negDelayNode emptyCtx).2 ≠ 1000 :=
  ⟨rfl, rfl, by decide⟩

/-- C10 amended.  An absent or zero (falsy) `config.duration` defaults to 1,
suspending for 1000 ms; a positive numeric duration `n` suspends for
`1000 * n` ms; a negative numeric duration is kept (it is truthy) but the
timer clamps it, suspending 0 ms. -/
theorem c10_delay_default_amended (node : WorkflowNode) (ctx : ExecutionContext)
    (n : Int) :
    (jsGet node.config "duration" = none → (executeDelay node ctx).2 = 1000)
    ∧ (jsGet node.config "duration" = some (.num 0) → (executeDelay node ctx).2 = 1000)
    ∧ (jsGet node.config "duration" = some (.num n) → 0 < n →
        (executeDelay node ctx).2 = 1000 * n)
    ∧ (jsGet node.config "duration" = some (.num n) → n < 0 →
        (executeDelay node ctx).2 = 0) := by
  refine ⟨fun h => ?_, fun h => ?_, fun h hn => ?_, fun h hn => ?_⟩
  · simp [executeDelay, jsOr, h, jsToNumber, setTimeoutMs]
  · simp [executeDelay, jsOr, h, jsTruthy, jsToNumber, setTimeoutMs]
  · have hne : n ≠ 0 := by omega
    simp [executeDelay, jsOr, h, jsTruthy, hne, jsToNumber, setTimeoutMs]
    omega
  · have hne : n ≠ 0 := by omega
    simp [executeDelay, jsOr, h, jsTruthy, hne, jsToNumber, setTimeoutMs]
    omega

/-- C10 amended, witness: a configured duration of 3 suspends 3000 ms. -/
theorem c10_delay_default_amended_witness :
    (0 : Int) < 3 ∧ (executeDelay posDelayNode emptyCtx).2 = 1000 * 3 := by
  refine ⟨by norm_num, ?_⟩
  exact (c10_delay_default_amended posDelayNode emptyCtx 3).2.2.1 rfl (by norm_num)

end AutoFlow
